import Mathlib

/-!
Verification development for the BarreraLabDrivers repository: a shallow
embedding in Lean 4 of the driver logic in
`src/barreralabdrivers/drivers/Yokogawa_GS820.py`,
`src/barreralabdrivers/drivers/DCDAC_5764.py`,
`src/barreralabdrivers/drivers/ACDAC_9106.py`,
`src/barreralabdrivers/drivers/Keithley_6500.py`, and
`src/barreralabdrivers/utils/param_utils.py`.

Python floats are modelled as exact rationals (`ℚ`); the ASCII command
strings written to the VISA transport are modelled by an inductive command
type that records the channel/mode/value payload of each formatted write
(the exact `printf`-style rendering of numbers is out of scope).  Python
exceptions are modelled with `Except`, with an error type that records the
exception class and message.  Device replies to query (`ask`) commands are
modelled as fields of the channel state.
-/

namespace BLD

/-- Python exceptions raised by the drivers, with their message. -/
inductive Err
  | valueError (msg : String)
  | runtimeError (msg : String)
  | gs200Exception (msg : String)
  deriving DecidableEq, Repr

/-- The two source modes of the Yokogawa GS820, `ModeType = Literal["CURR", "VOLT"]`. -/
inductive Mode
  | VOLT
  | CURR
  deriving DecidableEq, Repr

/-- The string rendering of a mode, as interpolated into commands and messages. -/
def modeStr : Mode → String
  | Mode.VOLT => "VOLT"
  | Mode.CURR => "CURR"

/-- Commands written (`self.write`) to the GS820 by the operations modelled
here.  `sourLev m v` stands for `"{channel}:SOUR:{m}:LEV {v:.5e}"`,
`sourRange m r` for `"{channel}:SOUR:{m}:RANGE {r}"`, and `sourFunc m` for
`"{channel}:SOUR:FUNC {m}"`. -/
inductive Cmd
  | sourLev (mode : Mode) (level : ℚ)
  | sourRange (mode : Mode) (range : ℚ)
  | sourFunc (mode : Mode)
  deriving DecidableEq, Repr

/-- State of one `YokogawaGS820Channel` as far as the modelled operations
observe it.  `modeCache` is the value returned by
`self.source_mode.get_latest()` (the cache is populated during `__init__`,
which reads `source_mode` from the device several times, so it is always one
of the two modes).  `outputOn`, `autoRange`, `devVRange`, `devCRange`,
`devVolt`, `devCurr` are the device-side values returned by the
corresponding `ask` queries.  `vrange`/`irange` are
`parent.vranges[model]`/`parent.iranges[model]`.  `rangeSource` and
`outputLevelSource` record which concrete parameter the delegate parameters
`range` and `output_level` currently point to, and the four `SnapExcl`
fields are the `snapshot_exclude` flags of `voltage_range`, `voltage`,
`current_range`, `current`. -/
structure YkChan where
  modeCache : Mode
  outputOn : Bool
  autoRange : Bool
  devVRange : ℚ
  devCRange : ℚ
  devVolt : ℚ
  devCurr : ℚ
  vrange : List ℚ
  irange : List ℚ
  rangeSource : Mode
  outputLevelSource : Mode
  vrSnapExcl : Bool
  vSnapExcl : Bool
  crSnapExcl : Bool
  cSnapExcl : Bool
  deriving DecidableEq, Repr

/-- The message of the mode-mismatch `ValueError` raised by `_assert_mode`:
`f"Cannot get/set {mode} settings while in {self.source_mode.get_latest()} mode"`. -/
def mismatchMsg (required actual : Mode) : String :=
  "Cannot get/set " ++ modeStr required ++ " settings while in " ++ modeStr actual ++ " mode"

/-- `YokogawaGS820Channel._assert_mode` (Yokogawa_GS820.py lines 426-436)
as a function of the cached mode: raise `ValueError` unless
`source_mode.get_latest()` equals the required mode. -/
def assertModeCache (cache mode : Mode) : Except Err Unit :=
  if cache ≠ mode then
    Except.error (Err.valueError (mismatchMsg mode cache))
  else
    Except.ok ()

/-- `YokogawaGS820Channel._assert_mode` applied to a channel state. -/
def assertMode (st : YkChan) (mode : Mode) : Except Err Unit :=
  assertModeCache st.modeCache mode

/-- `YokogawaGS820Channel._get_range` (lines 493-507): assert the mode, then
query `"{channel}:SOUR:{mode}:RANGE?"`.  The reply is the device-side range
for that mode.  The pair's first component is the list of commands written
(queries are `ask`s, not writes). -/
def getRangeOp (st : YkChan) (mode : Mode) : List Cmd × Except Err ℚ :=
  match assertMode st mode with
  | Except.error e => ([], Except.error e)
  | Except.ok _ =>
      ([], Except.ok (if mode = Mode.VOLT then st.devVRange else st.devCRange))

/-- `YokogawaGS820Channel._set_range` (lines 476-491): assert the mode, then
write `"{channel}:SOUR:{mode}:RANGE {output_range}"`. -/
def setRangeOp (st : YkChan) (mode : Mode) (outputRange : ℚ) : List Cmd × Except Err Unit :=
  match assertMode st mode with
  | Except.error e => ([], Except.error e)
  | Except.ok _ => ([Cmd.sourRange mode outputRange], Except.ok ())

/-- `self.range()`: the delegate `range` parameter forwards the get to its
current source (`voltage_range` or `current_range`), i.e. to `_get_range`
with that parameter's fixed mode argument. -/
def rangeQuery (st : YkChan) : Except Err ℚ :=
  (getRangeOp st st.rangeSource).2

/-- `self.range.get_latest()` as read inside `_set_output`: at that point the
cache has just been filled by the immediately preceding successful
`self.range()` query, so it holds the device-reported range for the current
delegate source. -/
def rangeGetLatest (st : YkChan) : Option ℚ :=
  some (if st.rangeSource = Mode.VOLT then st.devVRange else st.devCRange)

/-- `max` of a non-empty Python list (`max(self.vrange)`); `0` is a junk
value for the empty list, on which Python `max` raises. -/
def listMax : List ℚ → ℚ
  | [] => 0
  | x :: xs => xs.foldl max x

/-- The `RuntimeError` message used twice in `_set_output`. -/
def rangeUnknownMsg : String :=
  "Trying to set output but not in auto mode and range is unknown."

/-- The `ValueError` message of `_set_output`,
`f"Desired output level not in range [-{self_range:.3}, {self_range:.3}]"`
(numeric formatting abstracted to `toString`). -/
def outOfRangeMsg (r : ℚ) : String :=
  "Desired output level not in range [-" ++ toString r ++ ", " ++ toString r ++ "]"

/-- `YokogawaGS820Channel._set_output` (lines 338-384).  Faithful translation:
`auto_enabled = self.auto_range()`; `mode = self.source_mode.get_latest()`;
when auto range is off, `self_range = self.range()` (a parsed float, so the
`is None` check on it cannot fire); when auto range is on, the source sets
`self_range = max(self.vrange)` in the `"CURR"` branch and
`self_range = max(self.vrange)` in the other branch (both branches read the
voltage-range table; `self.irange` is not consulted).  Then the guard
`if self.range() is None or abs(output_level) > abs(self_range)` re-queries
the delegate range (never `None` once parsed); inside it, when auto range is
off, `self_range` is re-read from `self.range.get_latest()` with a
`RuntimeError` if that cache is `None`; if still out of range a `ValueError`
is raised.  Finally `"{channel}:SOUR:{mode}:LEV {output_level:.5e}"` is
written with `mode = self.source_mode.get_latest()`. -/
def setOutput (st : YkChan) (outputLevel : ℚ) : List Cmd × Except Err Unit :=
  let autoEnabled := st.autoRange
  let mode := st.modeCache
  let rangeRes : Except Err ℚ :=
    if !autoEnabled then
      rangeQuery st
    else
      if mode = Mode.CURR then Except.ok (listMax st.vrange)
      else Except.ok (listMax st.vrange)
  match rangeRes with
  | Except.error e => ([], Except.error e)
  | Except.ok selfRange =>
      match rangeQuery st with
      | Except.error e => ([], Except.error e)
      | Except.ok _ =>
          if |outputLevel| > |selfRange| then
            let refetch : Except Err ℚ :=
              if !autoEnabled then
                match rangeGetLatest st with
                | none => Except.error (Err.runtimeError rangeUnknownMsg)
                | some r => Except.ok r
              else Except.ok selfRange
            match refetch with
            | Except.error e => ([], Except.error e)
            | Except.ok selfRange2 =>
                if |outputLevel| > |selfRange2| then
                  ([], Except.error (Err.valueError (outOfRangeMsg selfRange2)))
                else
                  ([Cmd.sourLev st.modeCache outputLevel], Except.ok ())
          else
            ([Cmd.sourLev st.modeCache outputLevel], Except.ok ())

/-- `YokogawaGS820Channel._get_set_output` (lines 321-336): assert the mode;
with an argument, delegate to `_set_output`; without, query
`"{channel}:SOUR:{mode}:LEV?"`. -/
def getSetOutput (st : YkChan) (mode : Mode) (outputLevel : Option ℚ) :
    List Cmd × Except Err (Option ℚ) :=
  match assertMode st mode with
  | Except.error e => ([], Except.error e)
  | Except.ok _ =>
      match outputLevel with
      | some lv =>
          let r := setOutput st lv
          (r.1, r.2.map fun _ => none)
      | none =>
          ([], Except.ok (some (if mode = Mode.VOLT then st.devVolt else st.devCurr)))

/-- The `voltage` parameter's set: `set_cmd=partial(self._get_set_output, "VOLT")`. -/
def voltageSet (st : YkChan) (v : ℚ) : List Cmd × Except Err (Option ℚ) :=
  getSetOutput st Mode.VOLT (some v)

/-- The `voltage` parameter's get: `get_cmd=partial(self._get_set_output, "VOLT")`. -/
def voltageGet (st : YkChan) : List Cmd × Except Err (Option ℚ) :=
  getSetOutput st Mode.VOLT none

/-- The `current` parameter's set: `set_cmd=partial(self._get_set_output, "CURR")`. -/
def currentSet (st : YkChan) (v : ℚ) : List Cmd × Except Err (Option ℚ) :=
  getSetOutput st Mode.CURR (some v)

/-- The `current` parameter's get: `get_cmd=partial(self._get_set_output, "CURR")`. -/
def currentGet (st : YkChan) : List Cmd × Except Err (Option ℚ) :=
  getSetOutput st Mode.CURR none

/-- The `voltage_range` parameter's set: `set_cmd=partial(self._set_range, "VOLT")`. -/
def voltageRangeSet (st : YkChan) (r : ℚ) : List Cmd × Except Err Unit :=
  setRangeOp st Mode.VOLT r

/-- The `voltage_range` parameter's get: `get_cmd=partial(self._get_range, "VOLT")`. -/
def voltageRangeGet (st : YkChan) : List Cmd × Except Err ℚ :=
  getRangeOp st Mode.VOLT

/-- The `current_range` parameter's set: `set_cmd=partial(self._set_range, "CURR")`. -/
def currentRangeSet (st : YkChan) (r : ℚ) : List Cmd × Except Err Unit :=
  setRangeOp st Mode.CURR r

/-- The `current_range` parameter's get: `get_cmd=partial(self._get_range, "CURR")`. -/
def currentRangeGet (st : YkChan) : List Cmd × Except Err ℚ :=
  getRangeOp st Mode.CURR

/-- The domain mode of the four mode-gated parameters: `voltage` and
`voltage_range` are `"VOLT"` parameters, `current` and `current_range` are
`"CURR"` parameters. -/
def domainOf : Mode → Mode := id

/-- `self.output()`: `get_cmd=self.state` reads the device output state
(`1`/`0`), and the on/off value mapping renders it as `"on"`/`"off"`. -/
def outputGet (st : YkChan) : String :=
  if st.outputOn then "on" else "off"

/-- `YokogawaGS820Channel._set_source_mode` (lines 438-472): raise
`YokogawaGS200Exception` if `self.output() == "on"`; otherwise re-wire the
`range` and `output_level` delegate sources, flip the four
`snapshot_exclude` flags, write `"{channel}:SOUR:FUNC {mode}"`, and set the
`source_mode` cache.  The result is (post-state, written commands, raised
exception); on the raise no field has been assigned yet, so the post-state
is the pre-state. -/
def setSourceMode (st : YkChan) (mode : Mode) : YkChan × List Cmd × Option Err :=
  if outputGet st = "on" then
    (st, [], some (Err.gs200Exception "Cannot switch mode while source is on"))
  else
    let st1 :=
      if mode = Mode.VOLT then
        { st with
            rangeSource := Mode.VOLT
            outputLevelSource := Mode.VOLT
            vrSnapExcl := false
            vSnapExcl := false
            crSnapExcl := true
            cSnapExcl := true }
      else
        { st with
            rangeSource := Mode.CURR
            outputLevelSource := Mode.CURR
            vrSnapExcl := true
            vSnapExcl := true
            crSnapExcl := false
            cSnapExcl := false }
    ({ st1 with modeCache := mode }, [Cmd.sourFunc mode], none)

/-- C1: for the Yokogawa GS820 channel, every read or write of `voltage`,
`current`, `voltage_range` or `current_range` performed while the channel's
current source mode differs from the parameter's domain mode fails with the
mode-mismatch `ValueError` whose message names the required and the actual
mode, and writes no command to the instrument. -/
theorem mode_mismatch_rejects_access (st : YkChan) (m : Mode) (lv r : ℚ)
    (h : st.modeCache ≠ m) :
    mismatchMsg m st.modeCache =
      "Cannot get/set " ++ modeStr m ++ " settings while in " ++
        modeStr st.modeCache ++ " mode" ∧
    getSetOutput st m (some lv) =
      ([], Except.error (Err.valueError (mismatchMsg m st.modeCache))) ∧
    getSetOutput st m none =
      ([], Except.error (Err.valueError (mismatchMsg m st.modeCache))) ∧
    setRangeOp st m r =
      ([], Except.error (Err.valueError (mismatchMsg m st.modeCache))) ∧
    getRangeOp st m =
      ([], Except.error (Err.valueError (mismatchMsg m st.modeCache))) := by
  refine ⟨rfl, ?_, ?_, ?_, ?_⟩ <;>
    simp [getSetOutput, setRangeOp, getRangeOp, assertMode, assertModeCache, h]

/-- Witness for `mode_mismatch_rejects_access` at a concrete channel state in
`CURR` mode accessed with `VOLT`-domain operations. -/
theorem mode_mismatch_rejects_access_witness :
    voltageSet
        { modeCache := Mode.CURR, outputOn := false, autoRange := true,
          devVRange := 18, devCRange := 1, devVolt := 0, devCurr := 0,
          vrange := [1/5, 2, 7, 18], irange := [1/5000000, 2],
          rangeSource := Mode.CURR, outputLevelSource := Mode.CURR,
          vrSnapExcl := true, vSnapExcl := true,
          crSnapExcl := false, cSnapExcl := false } 1 =
      ([], Except.error (Err.valueError
        "Cannot get/set VOLT settings while in CURR mode")) :=
  (mode_mismatch_rejects_access _ Mode.VOLT 1 1 (by decide)).2.1

/-- C2: setting `source_mode` while the channel output is enabled raises
`YokogawaGS200Exception`, writes nothing to the device, and leaves the whole
channel state (delegate wiring, snapshot flags, mode cache) unchanged: the
{VOLT, CURR} mode machine never takes its transition while the output is on. -/
theorem set_source_mode_rejected_while_on (st : YkChan) (m : Mode)
    (h : st.outputOn = true) :
    setSourceMode st m =
      (st, [], some (Err.gs200Exception "Cannot switch mode while source is on")) := by
  simp [setSourceMode, outputGet, h]

/-- Witness for `set_source_mode_rejected_while_on` on a concrete channel
with the output on. -/
theorem set_source_mode_rejected_while_on_witness :
    setSourceMode
        { modeCache := Mode.VOLT, outputOn := true, autoRange := false,
          devVRange := 18, devCRange := 1, devVolt := 0, devCurr := 0,
          vrange := [1/5, 2, 7, 18], irange := [1/5000000, 2],
          rangeSource := Mode.VOLT, outputLevelSource := Mode.VOLT,
          vrSnapExcl := false, vSnapExcl := false,
          crSnapExcl := true, cSnapExcl := true } Mode.CURR =
      ({ modeCache := Mode.VOLT, outputOn := true, autoRange := false,
          devVRange := 18, devCRange := 1, devVolt := 0, devCurr := 0,
          vrange := [1/5, 2, 7, 18], irange := [1/5000000, 2],
          rangeSource := Mode.VOLT, outputLevelSource := Mode.VOLT,
          vrSnapExcl := false, vSnapExcl := false,
          crSnapExcl := true, cSnapExcl := true }, [],
        some (Err.gs200Exception "Cannot switch mode while source is on")) :=
  set_source_mode_rejected_while_on _ Mode.CURR rfl

/-- `YokogawaGS820.vranges` (Yokogawa_GS820.py lines 548-553), the per-model
voltage range tables, with the float literals `200e-3` etc. as exact
rationals. -/
def gs820Vranges (model : String) : Option (List ℚ) :=
  if model = "765601" then some [200/1000, 2, 7, 18]
  else if model = "765602" then some [200/1000, 2, 7, 18]
  else if model = "765611" then some [200/1000, 2, 20, 50]
  else if model = "765612" then some [200/1000, 2, 20, 50]
  else none

/-- `YokogawaGS820.iranges` (Yokogawa_GS820.py lines 555-560), the per-model
current range tables.  `_set_output` never reads this table: its auto-range
branch takes `max(self.vrange)` in both modes. -/
def gs820Iranges (model : String) : Option (List ℚ) :=
  if model = "765601" then
    some [200/1000000000, 2/1000000, 20/1000000, 200/1000000,
          2/1000, 20/1000, 200/1000, 12/10, 32/10]
  else if model = "765602" then
    some [200/1000000000, 2/1000000, 20/1000000, 200/1000000,
          2/1000, 20/1000, 200/1000, 12/10, 32/10]
  else if model = "765611" then
    some [200/1000000000, 2/1000000, 20/1000000, 200/1000000,
          2/1000, 20/1000, 200/1000, 600/1000, 12/10]
  else if model = "765612" then
    some [200/1000000000, 2/1000000, 20/1000000, 200/1000000,
          2/1000, 20/1000, 200/1000, 600/1000, 12/10]
  else none

/-- C8: with auto-range enabled (and the delegate `range` parameter wired to
the active mode's range parameter, as `__init__` and `_set_source_mode`
maintain), `_set_output` compares `abs(output_level)` against
`max(vranges[model])` whatever the source mode is — the current-range table
`iranges` is never consulted (the state's `irange` field is universally
quantified here and absent from `setOutput`) — and raises the out-of-range
`ValueError` exactly when the magnitude exceeds that bound, otherwise
writing the level command. -/
theorem set_output_autorange_bound (st : YkChan) (lv : ℚ) (model : String)
    (hauto : st.autoRange = true) (hsrc : st.rangeSource = st.modeCache)
    (hvr : gs820Vranges model = some st.vrange) :
    setOutput st lv =
      if listMax st.vrange < |lv| then
        ([], Except.error (Err.valueError (outOfRangeMsg (listMax st.vrange))))
      else
        ([Cmd.sourLev st.modeCache lv], Except.ok ()) := by
  have hpos : 0 ≤ listMax st.vrange := by
    simp only [gs820Vranges] at hvr
    split_ifs at hvr <;>
      first
        | exact Option.noConfusion hvr
        | (injection hvr with hvr
           rw [← hvr]
           norm_num [listMax, List.foldl, le_max_iff])
  have habs : |listMax st.vrange| = listMax st.vrange := abs_of_nonneg hpos
  by_cases hlt : listMax st.vrange < |lv| <;>
    simp [setOutput, rangeQuery, getRangeOp, assertMode, assertModeCache,
      rangeGetLatest, hauto, hsrc, habs, hlt]

/-- Witness for `set_output_autorange_bound`: a model-765601 channel in
auto-range mode rejects a 19 V request (the bound is `max(vrange) = 18`). -/
theorem set_output_autorange_bound_witness :
    setOutput
        { modeCache := Mode.VOLT, outputOn := true, autoRange := true,
          devVRange := 18, devCRange := 1, devVolt := 0, devCurr := 0,
          vrange := [200/1000, 2, 7, 18], irange := [200/1000000000, 2],
          rangeSource := Mode.VOLT, outputLevelSource := Mode.VOLT,
          vrSnapExcl := false, vSnapExcl := false,
          crSnapExcl := true, cSnapExcl := true } 19 =
      ([], Except.error (Err.valueError (outOfRangeMsg 18))) := by
  have habs : |(19 : ℚ)| = 19 := abs_of_nonneg (by norm_num)
  have hmax : listMax [200/1000, 2, 7, 18] = 18 := by
    norm_num [listMax, List.foldl, max_def]
  have h := set_output_autorange_bound
    { modeCache := Mode.VOLT, outputOn := true, autoRange := true,
      devVRange := 18, devCRange := 1, devVolt := 0, devCurr := 0,
      vrange := [200/1000, 2, 7, 18], irange := [200/1000000000, 2],
      rangeSource := Mode.VOLT, outputLevelSource := Mode.VOLT,
      vrSnapExcl := false, vSnapExcl := false,
      crSnapExcl := true, cSnapExcl := true } 19 "765601" rfl rfl rfl
  rw [h, hmax, habs, if_pos (by norm_num)]

/-! ### Ramp bookkeeping (`_ramp_source`, `ramp_voltage`, `ramp_current`) -/

/-- The slice of channel state seen by `_ramp_source`: the `source_mode`
cache (for the `_assert_mode` guard of `ramp_voltage`/`ramp_current`), the
`output_level.step` and `output_level.inter_delay` attributes (which qcodes
initialises to `None`, hence `Option`), and an opaque `other` component
standing for every remaining field of the channel. -/
structure RampState (α : Type) where
  modeCache : Mode
  step : Option ℚ
  interDelay : Option ℚ
  other : α

/-- `YokogawaGS820Channel._ramp_source` (lines 301-319): save
`output_level.step` and `output_level.inter_delay`, overwrite them with the
given step and delay, perform `self.output_level(ramp_to)` — modelled by the
arbitrary fallible `apply`, since the delegate set's behaviour is the host
framework's — and restore the saved attributes.  An exception from `apply`
propagates before the restore lines run. -/
def rampSource {α : Type} (apply : RampState α → ℚ → Except Err (RampState α))
    (st : RampState α) (rampTo step delay : ℚ) : Except Err (RampState α) :=
  let savedStep := st.step
  let savedInterDelay := st.interDelay
  let st1 := { st with step := some step, interDelay := some delay }
  match apply st1 rampTo with
  | Except.error e => Except.error e
  | Except.ok st2 =>
      Except.ok { st2 with step := savedStep, interDelay := savedInterDelay }

/-- `YokogawaGS820Channel.ramp_voltage` (lines 275-286): assert `"VOLT"`
mode, then `_ramp_source`. -/
def rampVoltage {α : Type} (apply : RampState α → ℚ → Except Err (RampState α))
    (st : RampState α) (rampTo step delay : ℚ) : Except Err (RampState α) :=
  match assertModeCache st.modeCache Mode.VOLT with
  | Except.error e => Except.error e
  | Except.ok _ => rampSource apply st rampTo step delay

/-- `YokogawaGS820Channel.ramp_current` (lines 288-299): assert `"CURR"`
mode, then `_ramp_source`. -/
def rampCurrent {α : Type} (apply : RampState α → ℚ → Except Err (RampState α))
    (st : RampState α) (rampTo step delay : ℚ) : Except Err (RampState α) :=
  match assertModeCache st.modeCache Mode.CURR with
  | Except.error e => Except.error e
  | Except.ok _ => rampSource apply st rampTo step delay

/-- C9: every `ramp_voltage` or `ramp_current` call that returns without an
exception leaves `output_level.step` and `output_level.inter_delay` equal to
their pre-call values, and the rest of the state is exactly what the inner
`output_level(ramp_to)` application produced — the save/overwrite/restore
bookkeeping touches no other field. -/
theorem ramp_restores_step_and_delay {α : Type}
    (apply : RampState α → ℚ → Except Err (RampState α))
    (st st' : RampState α) (rampTo s d : ℚ)
    (h : rampVoltage apply st rampTo s d = Except.ok st' ∨
         rampCurrent apply st rampTo s d = Except.ok st') :
    st'.step = st.step ∧ st'.interDelay = st.interDelay ∧
    ∃ st2, apply { st with step := some s, interDelay := some d } rampTo = Except.ok st2 ∧
      st' = { st2 with step := st.step, interDelay := st.interDelay } := by
  have key : rampSource apply st rampTo s d = Except.ok st' →
      st'.step = st.step ∧ st'.interDelay = st.interDelay ∧
      ∃ st2, apply { st with step := some s, interDelay := some d } rampTo = Except.ok st2 ∧
        st' = { st2 with step := st.step, interDelay := st.interDelay } := by
    intro hr
    simp only [rampSource] at hr
    cases happly : apply { st with step := some s, interDelay := some d } rampTo with
    | error e => rw [happly] at hr; cases hr
    | ok st2 =>
        rw [happly] at hr
        simp only [Except.ok.injEq] at hr
        subst hr
        exact ⟨rfl, rfl, st2, rfl, rfl⟩
  rcases h with h | h
  · simp only [rampVoltage] at h
    cases hm : assertModeCache st.modeCache Mode.VOLT with
    | error e => rw [hm] at h; cases h
    | ok u => rw [hm] at h; exact key h
  · simp only [rampCurrent] at h
    cases hm : assertModeCache st.modeCache Mode.CURR with
    | error e => rw [hm] at h; cases h
    | ok u => rw [hm] at h; exact key h

/-- Witness for `ramp_restores_step_and_delay` with a concrete successful
application on a unit-state channel: the step and inter-delay attributes come
back unchanged. -/
theorem ramp_restores_step_and_delay_witness :
    rampVoltage
        (fun (s : RampState Unit) (_ : ℚ) => (Except.ok s : Except Err (RampState Unit)))
        { modeCache := Mode.VOLT, step := some 1, interDelay := none, other := () }
        5 3 (1/2) =
      Except.ok { modeCache := Mode.VOLT, step := some 1, interDelay := none, other := () } ∧
    (some (1 : ℚ) = some 1 ∧ (none : Option ℚ) = none) := by
  have h := ramp_restores_step_and_delay
    (fun (s : RampState Unit) (_ : ℚ) => (Except.ok s : Except Err (RampState Unit)))
    { modeCache := Mode.VOLT, step := some 1, interDelay := none, other := () }
    { modeCache := Mode.VOLT, step := some 1, interDelay := none, other := () }
    5 3 (1/2) (Or.inl rfl)
  exact ⟨rfl, h.1, h.2.1⟩

/-! ### DAC channel voltage validation (DCDAC_5764.py, ACDAC_9106.py) -/

/-- Commands written to the two DAC instruments.  `dcdacVoltage ch v` stands
for `"{channel}:VOLTAGE {v}"` (DCDAC_5764.py line 77) and `acdacVoltage ch v`
for `"{channel}:VOLTAGE {v};PAT:UPDATE"` (ACDAC_9106.py line 67). -/
inductive DacCmd
  | dcdacVoltage (channel : String) (v : ℚ)
  | acdacVoltage (channel : String) (v : ℚ)
  deriving DecidableEq, Repr

/-- The qcodes `Numbers(min_value, max_value)` validator: a value passes iff
it lies in the closed interval. -/
def numbersValid (lo hi v : ℚ) : Bool :=
  lo ≤ v && v ≤ hi

/-- Setting the `voltage` parameter of a `DCDAC5764Channel`
(DCDAC_5764.py lines 37-46, 68-79): the qcodes parameter machinery first
validates the value against `Numbers(-10, 10)` and raises `ValueError`
without invoking the set command on failure; on success `_get_set_voltage`
writes `"{channel}:VOLTAGE {voltage}"`. -/
def dcdacSetVoltage (channel : String) (v : ℚ) : List DacCmd × Except Err Unit :=
  if numbersValid (-10) 10 v then
    ([DacCmd.dcdacVoltage channel v], Except.ok ())
  else
    ([], Except.error (Err.valueError "value out of Numbers(-10, 10) range"))

/-- Setting the `voltage` parameter of an `ACDAC9106Channel`
(ACDAC_9106.py lines 36-45, 58-69): validated against `Numbers(0, 450)`
(millivolts); on success `_get_set_voltage` writes
`"{channel}:VOLTAGE {voltage};PAT:UPDATE"`. -/
def acdacSetVoltage (channel : String) (v : ℚ) : List DacCmd × Except Err Unit :=
  if numbersValid 0 450 v then
    ([DacCmd.acdacVoltage channel v], Except.ok ())
  else
    ([], Except.error (Err.valueError "value out of Numbers(0, 450) range"))

/-- C6: a DCDAC5764 channel `voltage` set raises a `ValueError` with nothing
written exactly when the requested value is outside `[-10, 10]`, and an
ACDAC9106 channel `voltage` set does so exactly when the value is outside
`[0, 450]`; every in-range value is written as the channel's set command. -/
theorem dac_voltage_bounds (ch : String) (v : ℚ) :
    (dcdacSetVoltage ch v =
      if -10 ≤ v ∧ v ≤ 10 then ([DacCmd.dcdacVoltage ch v], Except.ok ())
      else ([], Except.error (Err.valueError "value out of Numbers(-10, 10) range"))) ∧
    (acdacSetVoltage ch v =
      if 0 ≤ v ∧ v ≤ 450 then ([DacCmd.acdacVoltage ch v], Except.ok ())
      else ([], Except.error (Err.valueError "value out of Numbers(0, 450) range"))) := by
  refine ⟨?_, ?_⟩
  · by_cases h : (-10 : ℚ) ≤ v ∧ v ≤ 10 <;>
      simp [dcdacSetVoltage, numbersValid, h]
  · by_cases h : (0 : ℚ) ≤ v ∧ v ≤ 450 <;>
      simp [acdacSetVoltage, numbersValid, h]

/-! ### Constructor identifier checks -/

/-- The supported GS820 models (Yokogawa_GS820.py line 539). -/
def gs820SupportedModels : List String :=
  ["765601", "765602", "765611", "765612"]

/-- The model check in `YokogawaGS820.__init__` (lines 538-543): raise
`ValueError` when the IDN-reported model is unsupported (`kmstring` is the
comma-separated rendering of the supported list). -/
def gs820ModelCheck (model : String) : Except Err Unit :=
  if model ∉ gs820SupportedModels then
    Except.error (Err.valueError
      "Unknown model. Supported models are: 765601, 765602, 765611, and 765612.")
  else
    Except.ok ()

/-- The channel-name check in `YokogawaGS820Channel.__init__` (lines 50-51);
the message's `"channe1"` typo is the source's. -/
def gs820ChannelCheck (channel : String) : Except Err Unit :=
  if channel ∉ ["channel1", "channel2"] then
    Except.error (Err.valueError "channel must be either \"channe1\" or \"channel2\"")
  else
    Except.ok ()

/-- `valid_chnls = [f"channel{i}" for i in range(1, 9)]` (DCDAC_5764.py line 29). -/
def dcdacValidChannels : List String :=
  (List.range 8).map fun i => "channel" ++ toString (i + 1)

/-- The channel-name check in `DCDAC5764Channel.__init__` (lines 29-31). -/
def dcdacChannelCheck (channel : String) : Except Err Unit :=
  if channel ∉ dcdacValidChannels then
    Except.error (Err.valueError (channel ++ " not in channel1, ..., channel8"))
  else
    Except.ok ()

/-- `valid_chnls = [f"ch{i}" for i in range(1, 9)]` (ACDAC_9106.py line 28). -/
def acdacValidChannels : List String :=
  (List.range 8).map fun i => "ch" ++ toString (i + 1)

/-- The channel-name check in `ACDAC9106Channel.__init__` (lines 28-30). -/
def acdacChannelCheck (channel : String) : Except Err Unit :=
  if channel ∉ acdacValidChannels then
    Except.error (Err.valueError (channel ++ " not in ch1, ..., ch8"))
  else
    Except.ok ()

/-- C7: each constructor's identifier check raises `ValueError` for exactly
the unsupported identifiers: a GS820 model outside {765601, 765602, 765611,
765612}, a GS820 channel name outside {channel1, channel2}, a DCDAC5764
channel name outside {channel1, ..., channel8} and an ACDAC9106 channel name
outside {ch1, ..., ch8}; every supported identifier passes the check. -/
theorem constructor_identifier_checks :
    (∀ m : String, gs820ModelCheck m =
      if m ∈ ["765601", "765602", "765611", "765612"] then Except.ok ()
      else Except.error (Err.valueError
        "Unknown model. Supported models are: 765601, 765602, 765611, and 765612.")) ∧
    (∀ c : String, gs820ChannelCheck c =
      if c ∈ ["channel1", "channel2"] then Except.ok ()
      else Except.error (Err.valueError
        "channel must be either \"channe1\" or \"channel2\"")) ∧
    (∀ c : String, dcdacChannelCheck c =
      if c ∈ ["channel1", "channel2", "channel3", "channel4",
              "channel5", "channel6", "channel7", "channel8"] then Except.ok ()
      else Except.error (Err.valueError (c ++ " not in channel1, ..., channel8"))) ∧
    (∀ c : String, acdacChannelCheck c =
      if c ∈ ["ch1", "ch2", "ch3", "ch4", "ch5", "ch6", "ch7", "ch8"] then Except.ok ()
      else Except.error (Err.valueError (c ++ " not in ch1, ..., ch8"))) := by
  have hd : dcdacValidChannels =
      ["channel1", "channel2", "channel3", "channel4",
       "channel5", "channel6", "channel7", "channel8"] := by decide
  have ha : acdacValidChannels =
      ["ch1", "ch2", "ch3", "ch4", "ch5", "ch6", "ch7", "ch8"] := by decide
  refine ⟨fun m => ?_, fun c => ?_, fun c => ?_, fun c => ?_⟩
  · simp only [gs820ModelCheck, gs820SupportedModels, ite_not]
  · simp only [gs820ChannelCheck, ite_not]
  · simp only [dcdacChannelCheck, hd, ite_not]
  · simp only [acdacChannelCheck, ha, ite_not]

/-! ### The ramping helper `paramp` (utils/param_utils.py lines 5-62)

`paramp` takes a tuple of parameter handles (or, legacy, one handle), an
optional tuple of final values (`final=(0)`, i.e. the integer `0`, means
"ramp every parameter to zero"), a step count and a per-step sleep time.
Each parameter handle is a Python callable that is both gettable (no
argument) and settable (one argument); here the observable behaviour of a
`paramp` call is its event trace: the ordered list of parameter
applications (`Ev.set i v` applies value `v` to parameter `i`) and sleeps.
The values a parameter was read to hold at the start are the `cur` list;
`fvals = none` models the default integer-zero `final`, `fvals = some fs`
an explicit tuple. -/

/-- `np.linspace(start, stop, num)` over exact rationals: `num` evenly
spaced samples from `start` to `stop` inclusive (`stop` exactly attained;
for `num = 1` numpy returns `[start]`, for `num = 0` the empty array). -/
def linspace (start stop : ℚ) (num : Nat) : List ℚ :=
  if num = 0 then []
  else if num = 1 then [start]
  else (List.range num).map fun (i : Nat) =>
    start + (stop - start) * (i : ℚ) / ((num : ℚ) - 1)

/-- One event of a `paramp` run: applying a value to the `i`-th parameter
handle, or a `sleep(sleep_time)` pause. -/
inductive Ev
  | set (i : Nat) (v : ℚ)
  | sleep
  deriving DecidableEq, Repr

/-- The per-parameter sample sequences `points` computed by `paramp`'s tuple
branch (lines 33-46): with an explicit `final` tuple, a `ValueError` when
the lengths differ, else `np.linspace(par(), final[i], steps)` per
parameter; with the default `final == (0)`, `np.linspace(par(), 0, steps)`. -/
def parampPoints (cur : List ℚ) (fvals : Option (List ℚ)) (steps : Nat) :
    Except String (List (List ℚ)) :=
  match fvals with
  | some fs =>
      if fs.length ≠ cur.length then
        Except.error "final and param must be the same length"
      else
        Except.ok ((List.range cur.length).map fun i =>
          linspace (cur.getD i 0) (fs.getD i 0) steps)
  | none =>
      Except.ok ((List.range cur.length).map fun i =>
        linspace (cur.getD i 0) 0 steps)

/-- The `track == True` loop (lines 49-54): for each step, apply that step's
sample to parameter 0, 1, ..., n-1 in order, then sleep once. -/
def trackTrueTrace (points : List (List ℚ)) (n steps : Nat) : List Ev :=
  (List.range steps).flatMap fun step =>
    ((List.range n).map fun i => Ev.set i ((points.getD i []).getD step 0)) ++ [Ev.sleep]

/-- The `track == False` loop (lines 57-62): ramp parameter 0 through all of
its samples (sleeping after each application), then parameter 1, and so on. -/
def trackFalseTrace (points : List (List ℚ)) (n : Nat) : List Ev :=
  (List.range n).flatMap fun i =>
    (points.getD i []).flatMap fun point => [Ev.set i point, Ev.sleep]

/-- The event trace of `paramp` on a tuple of `cur.length` parameters. -/
def parampTrace (cur : List ℚ) (fvals : Option (List ℚ)) (steps : Nat) (track : Bool) :
    Except String (List Ev) :=
  match parampPoints cur fvals steps with
  | Except.error e => Except.error e
  | Except.ok points =>
      Except.ok (if track then trackTrueTrace points cur.length steps
                 else trackFalseTrace points cur.length)

/-- The event trace of `paramp`'s legacy single-callable branch
(lines 25-29): `np.linspace(params(), final, steps)` applied in order with a
sleep after each application. -/
def parampSingleTrace (cur fval : ℚ) (steps : Nat) : List Ev :=
  (linspace cur fval steps).flatMap fun point => [Ev.set 0 point, Ev.sleep]

/-- The sequence of values a trace applies to parameter `i`, in order. -/
def appliedTo (tr : List Ev) (i : Nat) : List ℚ :=
  tr.filterMap fun e =>
    match e with
    | Ev.set j v => if j = i then some v else none
    | Ev.sleep => none

/-- `sleepSeparated i armed tr` checks that between any two consecutive
applications to parameter `i` in `tr` at least one sleep occurs (`armed`
records whether an application to `i` has been seen since the last sleep). -/
def sleepSeparated (i : Nat) : Bool → List Ev → Bool
  | _, [] => true
  | _, Ev.sleep :: rest => sleepSeparated i false rest
  | armed, Ev.set j _ :: rest =>
      if j = i then
        if armed then false else sleepSeparated i true rest
      else sleepSeparated i armed rest

/-- The target value of parameter `i`: the explicit `final[i]`, or zero for
the default `final == (0)`. -/
def targetOf (fvals : Option (List ℚ)) (i : Nat) : ℚ :=
  match fvals with
  | some fs => fs.getD i 0
  | none => 0

theorem filterMap_flatMap {α β γ : Type} (l : List α) (f : α → List β) (g : β → Option γ) :
    (l.flatMap f).filterMap g = l.flatMap fun a => (f a).filterMap g := by
  induction l with
  | nil => rfl
  | cons a l ih => simp [List.flatMap_cons, ih]

theorem flatMap_singleton_map {α β : Type} (l : List α) (g : α → β) :
    (l.flatMap fun a => [g a]) = l.map g := by
  induction l with
  | nil => rfl
  | cons a l ih => simp [List.flatMap_cons, ih]

theorem appliedTo_append (a b : List Ev) (i : Nat) :
    appliedTo (a ++ b) i = appliedTo a i ++ appliedTo b i := by
  simp [appliedTo]

theorem appliedTo_flatMap {α : Type} (K : List α) (f : α → List Ev) (i : Nat) :
    appliedTo (K.flatMap f) i = K.flatMap fun k => appliedTo (f k) i := by
  simp [appliedTo, filterMap_flatMap]

theorem appliedTo_rangeMap_of_ge (f : Nat → ℚ) (n i : Nat) (h : n ≤ i) :
    appliedTo ((List.range n).map fun j => Ev.set j (f j)) i = [] := by
  induction n with
  | zero => rfl
  | succ n ih =>
      rw [List.range_succ, List.map_append, appliedTo_append, ih (by omega)]
      have hni : n ≠ i := by omega
      simp [appliedTo, hni]

theorem appliedTo_rangeMap (f : Nat → ℚ) (n i : Nat) (h : i < n) :
    appliedTo ((List.range n).map fun j => Ev.set j (f j)) i = [f i] := by
  induction n with
  | zero => omega
  | succ n ih =>
      rw [List.range_succ, List.map_append, appliedTo_append]
      by_cases hin : i < n
      · rw [ih hin]
        have hni : n ≠ i := by omega
        simp [appliedTo, hni]
      · have hieq : i = n := by omega
        subst hieq
        rw [appliedTo_rangeMap_of_ge f i i le_rfl]
        simp [appliedTo]

theorem map_getD_range (l : List ℚ) :
    (List.range l.length).map (fun k => l.getD k 0) = l := by
  apply List.ext_get
  · simp
  · intro n h1 h2
    simp [List.getD_eq_getElem?_getD, List.getElem?_range, h2]

theorem flatMap_ite_of_not_mem (K : List Nat) (i : Nat) (M : List ℚ) (h : i ∉ K) :
    (K.flatMap fun j => if j = i then M else []) = [] := by
  induction K with
  | nil => rfl
  | cons a K ih =>
      rw [List.flatMap_cons]
      have ha : a ≠ i := fun e => h (e ▸ List.mem_cons_self a K)
      rw [if_neg ha, ih fun hm => h (List.mem_cons_of_mem a hm)]
      rfl

theorem flatMap_ite_range (n i : Nat) (M : List ℚ) (h : i < n) :
    ((List.range n).flatMap fun j => if j = i then M else []) = M := by
  induction n with
  | zero => omega
  | succ n ih =>
      rw [List.range_succ, List.flatMap_append]
      by_cases hin : i < n
      · rw [ih hin]
        have hni : n ≠ i := by omega
        simp [hni]
      · have hieq : i = n := by omega
        subst hieq
        rw [flatMap_ite_of_not_mem _ _ _ (by simp [List.mem_range])]
        simp

theorem linspace_length (a b : ℚ) (num : Nat) (h : 2 ≤ num) :
    (linspace a b num).length = num := by
  have h0 : num ≠ 0 := by omega
  have h1 : num ≠ 1 := by omega
  rw [linspace, if_neg h0, if_neg h1, List.length_map, List.length_range]

theorem linspace_getD (a b : ℚ) (num k : Nat) (h : 2 ≤ num) (hk : k < num) :
    (linspace a b num).getD k 0 = a + (b - a) * (k : ℚ) / ((num : ℚ) - 1) := by
  have h0 : num ≠ 0 := by omega
  have h1 : num ≠ 1 := by omega
  rw [linspace, if_neg h0, if_neg h1, List.getD_eq_getElem?_getD, List.getElem?_map,
    List.getElem?_range hk]
  rfl

theorem parampPoints_getD (cur : List ℚ) (fvals : Option (List ℚ)) (steps : Nat)
    (pts : List (List ℚ)) (i : Nat)
    (hp : parampPoints cur fvals steps = Except.ok pts) (hi : i < cur.length) :
    pts.getD i [] = linspace (cur.getD i 0) (targetOf fvals i) steps := by
  cases fvals with
  | none =>
      simp only [parampPoints] at hp
      injection hp with hp
      subst hp
      simp [List.getD_eq_getElem?_getD, List.getElem?_map, List.getElem?_range, hi, targetOf]
  | some fs =>
      simp only [parampPoints] at hp
      by_cases hl : fs.length = cur.length
      · rw [if_neg (fun hn => hn hl)] at hp
        injection hp with hp
        subst hp
        simp [List.getD_eq_getElem?_getD, List.getElem?_map, List.getElem?_range, hi, targetOf]
      · rw [if_pos hl] at hp
        cases hp

theorem parampTrace_ok (cur : List ℚ) (fvals : Option (List ℚ)) (steps : Nat) (track : Bool)
    (tr : List Ev) (htr : parampTrace cur fvals steps track = Except.ok tr) :
    ∃ pts, parampPoints cur fvals steps = Except.ok pts ∧
      tr = if track then trackTrueTrace pts cur.length steps
           else trackFalseTrace pts cur.length := by
  unfold parampTrace at htr
  cases hp : parampPoints cur fvals steps with
  | error e => rw [hp] at htr; cases htr
  | ok pts =>
      rw [hp] at htr
      injection htr with htr
      exact ⟨pts, rfl, htr.symm⟩

theorem appliedTo_trackTrue (pts : List (List ℚ)) (n steps i : Nat) (hi : i < n) :
    appliedTo (trackTrueTrace pts n steps) i =
      (List.range steps).map fun k => (pts.getD i []).getD k 0 := by
  unfold trackTrueTrace
  rw [appliedTo_flatMap]
  have hblock : ∀ k, appliedTo (((List.range n).map fun j =>
      Ev.set j ((pts.getD j []).getD k 0)) ++ [Ev.sleep]) i =
      [(pts.getD i []).getD k 0] := by
    intro k
    rw [appliedTo_append, appliedTo_rangeMap _ n i hi]
    simp [appliedTo]
  simp only [hblock]
  exact flatMap_singleton_map _ _

theorem appliedTo_trackFalse (pts : List (List ℚ)) (n i : Nat) (hi : i < n) :
    appliedTo (trackFalseTrace pts n) i = pts.getD i [] := by
  unfold trackFalseTrace
  rw [appliedTo_flatMap]
  have hrun : ∀ j, appliedTo ((pts.getD j []).flatMap fun v => [Ev.set j v, Ev.sleep]) i
      = if j = i then pts.getD i [] else [] := by
    intro j
    rw [appliedTo_flatMap]
    by_cases hj : j = i
    · subst hj
      have : ∀ v : ℚ, appliedTo [Ev.set j v, Ev.sleep] j = [v] := by
        intro v; simp [appliedTo]
      simp only [this, if_pos rfl]
      simp
    · have : ∀ v : ℚ, appliedTo [Ev.set j v, Ev.sleep] i = [] := by
        intro v; simp [appliedTo, hj]
      simp [this, hj]
  simp only [hrun]
  exact flatMap_ite_range n i _ hi

theorem sleepSeparated_nil (i : Nat) (armed : Bool) :
    sleepSeparated i armed [] = true := rfl

theorem sleepSeparated_sleep (i : Nat) (armed : Bool) (rest : List Ev) :
    sleepSeparated i armed (Ev.sleep :: rest) = sleepSeparated i false rest := rfl

theorem sleepSeparated_set (i j : Nat) (v : ℚ) (armed : Bool) (rest : List Ev) :
    sleepSeparated i armed (Ev.set j v :: rest) =
      if j = i then
        if armed then false else sleepSeparated i true rest
      else sleepSeparated i armed rest := rfl

theorem sleepSeparated_notin_append (i : Nat) (L : List Nat) (g : Nat → ℚ)
    (tl : List Ev) (armed : Bool) (h : i ∉ L) :
    sleepSeparated i armed ((L.map fun j => Ev.set j (g j)) ++ tl) =
      sleepSeparated i armed tl := by
  induction L with
  | nil => rfl
  | cons a L ih =>
      have ha : a ≠ i := fun e => h (e ▸ List.mem_cons_self a L)
      rw [List.map_cons, List.cons_append, sleepSeparated_set, if_neg ha]
      exact ih fun hm => h (List.mem_cons_of_mem a hm)

theorem sleepSeparated_block (i : Nat) (L : List Nat) (g : Nat → ℚ) (tl : List Ev)
    (hnd : L.Nodup) :
    sleepSeparated i false ((L.map fun j => Ev.set j (g j)) ++ Ev.sleep :: tl) =
      sleepSeparated i false tl := by
  induction L with
  | nil => rw [List.map_nil, List.nil_append, sleepSeparated_sleep]
  | cons a L ih =>
      have hnd' := List.nodup_cons.mp hnd
      by_cases ha : a = i
      · subst ha
        rw [List.map_cons, List.cons_append, sleepSeparated_set, if_pos rfl]
        simp only [Bool.false_eq_true, if_false]
        rw [sleepSeparated_notin_append a L g (Ev.sleep :: tl) true hnd'.1,
          sleepSeparated_sleep]
      · rw [List.map_cons, List.cons_append, sleepSeparated_set, if_neg ha]
        exact ih hnd'.2

theorem sleepSeparated_trackTrue (pts : List (List ℚ)) (n steps i : Nat) :
    sleepSeparated i false (trackTrueTrace pts n steps) = true := by
  unfold trackTrueTrace
  suffices h : ∀ K : List Nat, sleepSeparated i false (K.flatMap fun k =>
      ((List.range n).map fun j => Ev.set j ((pts.getD j []).getD k 0)) ++ [Ev.sleep]) =
      true from h (List.range steps)
  intro K
  induction K with
  | nil => rfl
  | cons k K ih =>
      rw [List.flatMap_cons, List.append_assoc, List.singleton_append,
        sleepSeparated_block i (List.range n) _ _ (List.nodup_range n)]
      exact ih

theorem sleepSeparated_foreignRun (i j : Nat) (P : List ℚ) (tl : List Ev) (hne : j ≠ i) :
    sleepSeparated i false ((P.flatMap fun v => [Ev.set j v, Ev.sleep]) ++ tl) =
      sleepSeparated i false tl := by
  induction P with
  | nil => rfl
  | cons v P ih =>
      rw [List.flatMap_cons]
      simp only [List.cons_append, List.nil_append, List.append_assoc]
      rw [sleepSeparated_set, if_neg hne, sleepSeparated_sleep]
      exact ih

theorem sleepSeparated_ownRun (i : Nat) (P : List ℚ) (tl : List Ev) :
    sleepSeparated i false ((P.flatMap fun v => [Ev.set i v, Ev.sleep]) ++ tl) =
      sleepSeparated i false tl := by
  induction P with
  | nil => rfl
  | cons v P ih =>
      rw [List.flatMap_cons]
      simp only [List.cons_append, List.nil_append, List.append_assoc]
      rw [sleepSeparated_set, if_pos rfl]
      simp only [Bool.false_eq_true, if_false]
      rw [sleepSeparated_sleep]
      exact ih

theorem sleepSeparated_trackFalse (pts : List (List ℚ)) (n i : Nat) :
    sleepSeparated i false (trackFalseTrace pts n) = true := by
  unfold trackFalseTrace
  suffices h : ∀ K : List Nat, sleepSeparated i false (K.flatMap fun j =>
      (pts.getD j []).flatMap fun v => [Ev.set j v, Ev.sleep]) = true from h (List.range n)
  intro K
  induction K with
  | nil => rfl
  | cons j K ih =>
      rw [List.flatMap_cons]
      by_cases hj : j = i
      · subst hj
        rw [sleepSeparated_ownRun]
        exact ih
      · rw [sleepSeparated_foreignRun i j _ _ hj]
        exact ih

/-! ### Executing a trace against fallible parameter handles -/

/-- Whether applying event `e` raises an exception: a `set` raises according
to the handle's behaviour `fail`; `sleep` never raises. -/
def failsAt (fail : Nat → ℚ → Bool) : Ev → Bool
  | Ev.set i v => fail i v
  | Ev.sleep => false

/-- Run a trace left to right: the first event whose application raises
aborts the run (its own write does not take effect and nothing after it
runs); the result is the list of events actually performed and whether the
run completed.  `paramp` has no handler, so the exception propagates. -/
def runTrace (fail : Nat → ℚ → Bool) : List Ev → List Ev × Bool
  | [] => ([], true)
  | e :: rest =>
      if failsAt fail e then ([], false)
      else ((e :: (runTrace fail rest).1, (runTrace fail rest).2))

/-- C3: for a `paramp` call on a tuple of parameters (any `track` flag, any
target: explicit tuple or default zero) with `steps ≥ 2`, every parameter
index receives exactly `steps` evenly spaced values (constant consecutive
difference `(target - start)/(steps - 1)`) beginning at that parameter's
current value and ending exactly at its target, applied in increasing sample
order, with a sleep between any two consecutive applications to the same
parameter; the legacy single-handle branch applies the same `linspace`
sequence with the same pacing. -/
theorem paramp_ramp_values (cur : List ℚ) (fvals : Option (List ℚ)) (steps : Nat)
    (track : Bool) (i : Nat) (tr : List Ev)
    (hsteps : 2 ≤ steps) (hi : i < cur.length)
    (htr : parampTrace cur fvals steps track = Except.ok tr) :
    appliedTo tr i = linspace (cur.getD i 0) (targetOf fvals i) steps ∧
    (appliedTo tr i).length = steps ∧
    (appliedTo tr i).getD 0 0 = cur.getD i 0 ∧
    (appliedTo tr i).getD (steps - 1) 0 = targetOf fvals i ∧
    (∀ k, k + 1 < steps →
      (appliedTo tr i).getD (k + 1) 0 - (appliedTo tr i).getD k 0 =
        (targetOf fvals i - cur.getD i 0) / ((steps : ℚ) - 1)) ∧
    sleepSeparated i false tr = true ∧
    (∀ c f : ℚ,
      appliedTo (parampSingleTrace c f steps) 0 = linspace c f steps ∧
      sleepSeparated 0 false (parampSingleTrace c f steps) = true) := by
  obtain ⟨pts, hp, htr'⟩ := parampTrace_ok cur fvals steps track tr htr
  have hpd := parampPoints_getD cur fvals steps pts i hp hi
  have hL : (linspace (cur.getD i 0) (targetOf fvals i) steps).length = steps :=
    linspace_length _ _ _ hsteps
  have hne : ((steps : ℚ) - 1) ≠ 0 := by
    have h2 : (2 : ℚ) ≤ (steps : ℚ) := by exact_mod_cast hsteps
    intro hc
    nlinarith
  have happ : appliedTo tr i = linspace (cur.getD i 0) (targetOf fvals i) steps := by
    cases track with
    | true =>
        rw [if_pos rfl] at htr'
        rw [htr', appliedTo_trackTrue pts cur.length steps i hi]
        simp only [hpd]
        generalize hgen : linspace (cur.getD i 0) (targetOf fvals i) steps = L
        rw [hgen] at hL
        rw [← hL]
        exact map_getD_range L
    | false =>
        rw [if_neg Bool.false_ne_true] at htr'
        rw [htr', appliedTo_trackFalse pts cur.length i hi, hpd]
  refine ⟨happ, ?_, ?_, ?_, ?_, ?_, ?_⟩
  · rw [happ, hL]
  · rw [happ, linspace_getD _ _ _ _ hsteps (by omega)]
    simp
  · rw [happ, linspace_getD _ _ _ _ hsteps (by omega)]
    have hc : (((steps - 1 : Nat)) : ℚ) = (steps : ℚ) - 1 := by
      have h1 : 1 ≤ steps := by omega
      push_cast [h1]
      ring
    rw [hc]
    field_simp
  · intro k hk
    rw [happ, linspace_getD _ _ _ _ hsteps hk, linspace_getD _ _ _ _ hsteps (by omega)]
    push_cast
    field_simp
    ring
  · cases track with
    | true =>
        rw [if_pos rfl] at htr'
        rw [htr']
        exact sleepSeparated_trackTrue pts cur.length steps i
    | false =>
        rw [if_neg Bool.false_ne_true] at htr'
        rw [htr']
        exact sleepSeparated_trackFalse pts cur.length i
  · intro c f
    constructor
    · unfold parampSingleTrace
      rw [appliedTo_flatMap]
      have hone : ∀ v : ℚ, appliedTo [Ev.set 0 v, Ev.sleep] 0 = [v] := by
        intro v; simp [appliedTo]
      simp only [hone]
      simp
    · unfold parampSingleTrace
      have hrun := sleepSeparated_ownRun 0 (linspace c f steps) []
      rw [List.append_nil] at hrun
      rw [hrun]
      rfl

/-- One concrete `paramp` tuple run (a single parameter currently at 4,
default target 0, two steps, lockstep flag) and its full trace. -/
theorem paramp_trace_true_example :
    parampTrace [(4 : ℚ)] none 2 true =
      Except.ok [Ev.set 0 4, Ev.sleep, Ev.set 0 0, Ev.sleep] := by
  have h1 : linspace 4 0 2 = [4, 0] := by
    norm_num [linspace, List.range_succ, List.range_zero]
  simp [parampTrace, parampPoints, trackTrueTrace, h1, List.range_succ]

/-- The same run with `track=False`; with a single parameter the sequential
trace coincides. -/
theorem paramp_trace_false_example :
    parampTrace [(4 : ℚ)] none 2 false =
      Except.ok [Ev.set 0 4, Ev.sleep, Ev.set 0 0, Ev.sleep] := by
  have h1 : linspace 4 0 2 = [4, 0] := by
    norm_num [linspace, List.range_succ, List.range_zero]
  simp [parampTrace, parampPoints, trackFalseTrace, h1, List.range_succ]

/-- Witness for `paramp_ramp_values` on the concrete run above: the applied
values are exactly `linspace 4 0 2`. -/
theorem paramp_ramp_values_witness :
    appliedTo [Ev.set 0 4, Ev.sleep, Ev.set 0 0, Ev.sleep] 0 = linspace 4 0 2 :=
  (paramp_ramp_values [(4 : ℚ)] none 2 true 0
    [Ev.set 0 4, Ev.sleep, Ev.set 0 0, Ev.sleep]
    (by norm_num) (by norm_num) paramp_trace_true_example).1

/-- C4: with `track=True` the trace is the lockstep interleaving — for each
step index `k` in order, parameters `0, ..., n-1` each receive their `k`-th
sample, then one sleep — so every parameter's `k`-th sample is applied
before any parameter's `(k+1)`-th; with `track=False` the trace is the
sequential concatenation in which parameter `i` receives all of its `steps`
samples (each followed by a sleep) before parameter `i+1` receives any. -/
theorem paramp_lockstep_and_sequential (cur : List ℚ) (fvals : Option (List ℚ))
    (steps : Nat) (tr tr' : List Ev)
    (h1 : parampTrace cur fvals steps true = Except.ok tr)
    (h2 : parampTrace cur fvals steps false = Except.ok tr') :
    (tr = (List.range steps).flatMap fun k =>
      ((List.range cur.length).map fun i =>
        Ev.set i ((linspace (cur.getD i 0) (targetOf fvals i) steps).getD k 0)) ++
      [Ev.sleep]) ∧
    (tr' = (List.range cur.length).flatMap fun i =>
      (linspace (cur.getD i 0) (targetOf fvals i) steps).flatMap fun v =>
        [Ev.set i v, Ev.sleep]) := by
  obtain ⟨pts, hp, htr1⟩ := parampTrace_ok cur fvals steps true tr h1
  obtain ⟨pts2, hp2, htr2⟩ := parampTrace_ok cur fvals steps false tr' h2
  rw [hp] at hp2
  injection hp2 with hp2
  subst hp2
  constructor
  · rw [if_pos rfl] at htr1
    rw [htr1]
    unfold trackTrueTrace
    refine List.flatMap_congr fun k _ => ?_
    have hmap : ∀ i ∈ List.range cur.length,
        Ev.set i ((pts.getD i []).getD k 0) =
        Ev.set i ((linspace (cur.getD i 0) (targetOf fvals i) steps).getD k 0) := by
      intro i himem
      rw [parampPoints_getD cur fvals steps pts i hp (List.mem_range.mp himem)]
    rw [List.map_congr_left hmap]
  · rw [if_neg Bool.false_ne_true] at htr2
    rw [htr2]
    unfold trackFalseTrace
    refine List.flatMap_congr fun i himem => ?_
    rw [parampPoints_getD cur fvals steps pts i hp (List.mem_range.mp himem)]

/-- Witness for `paramp_lockstep_and_sequential` on the concrete run. -/
theorem paramp_lockstep_and_sequential_witness :
    ([Ev.set 0 4, Ev.sleep, Ev.set 0 0, Ev.sleep] =
      (List.range 2).flatMap fun k =>
        ((List.range ([(4 : ℚ)].length)).map fun i =>
          Ev.set i ((linspace ([(4 : ℚ)].getD i 0) (targetOf none i) 2).getD k 0)) ++
        [Ev.sleep]) ∧
    ([Ev.set 0 4, Ev.sleep, Ev.set 0 0, Ev.sleep] =
      (List.range ([(4 : ℚ)].length)).flatMap fun i =>
        (linspace ([(4 : ℚ)].getD i 0) (targetOf none i) 2).flatMap fun v =>
          [Ev.set i v, Ev.sleep]) :=
  paramp_lockstep_and_sequential [(4 : ℚ)] none 2 _ _
    paramp_trace_true_example paramp_trace_false_example

/-- C5: if applying one of the samples of a `paramp` trace raises, the
exception propagates (the run reports failure), every application before the
failing one has been performed exactly once and is not undone, and no later
event of the trace is executed — no retry, no rollback. -/
theorem paramp_failure_aborts (cur : List ℚ) (fvals : Option (List ℚ)) (steps : Nat)
    (track : Bool) (tr t1 t2 : List Ev) (i : Nat) (v : ℚ) (fail : Nat → ℚ → Bool)
    (_htr : parampTrace cur fvals steps track = Except.ok tr)
    (hsplit : tr = t1 ++ Ev.set i v :: t2)
    (hok : ∀ e ∈ t1, failsAt fail e = false)
    (hfail : fail i v = true) :
    runTrace fail tr = (t1, false) := by
  clear _htr
  subst hsplit
  induction t1 with
  | nil =>
      rw [List.nil_append]
      unfold runTrace
      simp [failsAt, hfail]
  | cons e t1 ih =>
      rw [List.cons_append]
      unfold runTrace
      have he : failsAt fail e = false := hok e (List.mem_cons_self e t1)
      rw [he]
      simp only [Bool.false_eq_true, if_false]
      rw [ih fun e' he' => hok e' (List.mem_cons_of_mem e he')]

/-- Witness for `paramp_failure_aborts`: on the concrete run, a handle that
raises when asked to apply 0 stops the run after the first two events. -/
theorem paramp_failure_aborts_witness :
    runTrace (fun _ v => decide (v = 0)) [Ev.set 0 4, Ev.sleep, Ev.set 0 0, Ev.sleep] =
      ([Ev.set 0 4, Ev.sleep], false) :=
  paramp_failure_aborts [(4 : ℚ)] none 2 true
    [Ev.set 0 4, Ev.sleep, Ev.set 0 0, Ev.sleep]
    [Ev.set 0 4, Ev.sleep] [Ev.sleep] 0 0 (fun _ v => decide (v = 0))
    paramp_trace_true_example rfl
    (by
      intro e he
      fin_cases he
      · simp only [failsAt, decide_eq_false_iff_not]
        norm_num
      · rfl)
    (by simp)

/-! ### Keithley 6500 `_parse_output_string` (Keithley_6500.py lines 10-28) -/

/-- The ASCII characters Python `str.strip()` removes. -/
def pyWhitespaceChars : List Char := [' ', '\t', '\n', '\r', '\x0b', '\x0c']

/-- Python whitespace test used by `strip()`. -/
def pyIsSpace (c : Char) : Bool := c ∈ pyWhitespaceChars

/-- Python `str.strip()`: drop whitespace from both ends. -/
def pyStrip (s : List Char) : List Char :=
  ((s.dropWhile pyIsSpace).reverse.dropWhile pyIsSpace).reverse

/-- Python `str.lower()` (the ASCII range suffices for multimeter replies). -/
def pyLower (s : List Char) : List Char := s.map Char.toLower

/-- The single-quote character, one of the two quote characters in the
source's `s.startswith((<single-quote>, <double-quote>))` test. -/
def squoteChar : Char := Char.ofNat 39

/-- The final translation step of `_parse_output_string`:
`conversions = {"mov": "moving", "rep": "repeat"}`, applied when the cleaned
string is one of the keys. -/
def pyConvertMovRep (t : List Char) : List Char :=
  if t = "mov".toList then "moving".toList
  else if t = "rep".toList then "repeat".toList
  else t

/-- `_parse_output_string`: `s = string_value.strip().lower()`; if
`s[0] == s[-1]` and `s` starts with a quote character then `s = s[1:-1]`;
then the mov/rep conversion.  The indexing `s[0]`/`s[-1]` raises
`IndexError` exactly when the stripped string is empty, modelled by `none`. -/
def parseOutputString (s : List Char) : Option (List Char) :=
  match pyLower (pyStrip s) with
  | [] => none
  | c :: rest =>
      some (pyConvertMovRep
        (if c = (c :: rest).getLast (List.cons_ne_nil c rest) ∧
            (c = squoteChar ∨ c = '"') then
          ((c :: rest).drop 1).dropLast
        else c :: rest))

/-- C10: `_parse_output_string` is total exactly on the inputs whose
whitespace-stripped form is non-empty (for a whitespace-only input the
`s[0]` indexing is out of bounds); on those inputs it returns the
lowercased, stripped string, with first and last character removed when they
are an identical quote character, then with `mov`/`rep` mapped to
`moving`/`repeat`. -/
theorem parse_output_string_spec (s : List Char) :
    ((parseOutputString s).isSome ↔ pyStrip s ≠ []) ∧
    (∀ c rest, pyLower (pyStrip s) = c :: rest →
      parseOutputString s =
        some (pyConvertMovRep
          (if c = (c :: rest).getLast (List.cons_ne_nil c rest) ∧
              (c = squoteChar ∨ c = '"') then
            ((c :: rest).drop 1).dropLast
          else c :: rest))) ∧
    ((∀ a ∈ s, pyIsSpace a = true) → parseOutputString s = none) := by
  refine ⟨?_, ?_, ?_⟩
  · unfold parseOutputString
    cases hc : pyLower (pyStrip s) with
    | nil =>
        have hnil : pyStrip s = [] := by
          have := hc
          unfold pyLower at this
          exact List.map_eq_nil_iff.mp this
        simp [hnil]
    | cons c rest =>
        have hne : pyStrip s ≠ [] := by
          intro hnil
          rw [hnil] at hc
          exact List.noConfusion hc
        simp [hne]
  · intro c rest hc
    unfold parseOutputString
    rw [hc]
  · intro hall
    have h1 : s.dropWhile pyIsSpace = [] := List.dropWhile_eq_nil_iff.mpr hall
    have h2 : pyStrip s = [] := by
      unfold pyStrip
      rw [h1]
      rfl
    unfold parseOutputString
    rw [show pyLower (pyStrip s) = [] from by rw [h2]; rfl]

/-- Witness for `parse_output_string_spec`: a whitespace-only reply makes
the parser hit the out-of-bounds indexing. -/
theorem parse_output_string_spec_witness :
    parseOutputString [' ', '\t'] = none :=
  (parse_output_string_spec [' ', '\t']).2.2 (by decide)

end BLD
